import Mathlib

/-!
Shallow embedding of realm-js's engine-binding layer: the collection
notification bridge (`src/js_collection.hpp`) and the JavaScriptCore
object-wrap adapter (`src/jsc/jsc_class.hpp`).

Scripting-engine values are modelled by an explicit `JsValue` inductive,
C++ exceptions by `CppExc` (distinguishing `std::exception`-derived
exceptions, which carry a `what()` message, from foreign exceptions,
which do not), and each engine-ABI callback by a Lean function returning
`Except CppExc α`: an `Except.error` outcome means a C++ exception
propagated out of the modelled function across the ABI boundary, while a
normal return carries the engine's error-out slot (`Option String`,
`some msg` meaning the slot was filled with an engine exception value
built from message `msg`).
-/

/-- The scripting-engine value domain, as used by this layer: `undefined`,
numbers, strings, arrays of numbers (the only array shape this layer
creates), plain objects (association list of properties), function
references and plain object references. References and functions carry
an identity (the engine pointer), which is what `Protected` comparators
compare. -/
inductive JsValue where
  | undefined : JsValue
  | num (n : Nat) : JsValue
  | str (s : String) : JsValue
  | numArray (elems : List Nat) : JsValue
  | obj (props : List (String × JsValue)) : JsValue
  | fn (id : Nat) : JsValue
  | ref (id : Nat) : JsValue

/-- A C++ exception in flight: the three `std` kinds the code
distinguishes by catch clause, plus an exception not derived from
`std::exception` (only ever caught by `catch (...)`). -/
inductive CppExc where
  | outOfRange (msg : String) : CppExc
  | invalidArgument (msg : String) : CppExc
  | stdExc (msg : String) : CppExc
  | nonStd : CppExc
  deriving DecidableEq, Repr

/-- `e.what()` when the exception derives from `std::exception`;
`none` for a foreign exception, which has no description. -/
def CppExc.whatMsg : CppExc → Option String
  | .outOfRange m => some m
  | .invalidArgument m => some m
  | .stdExc m => some m
  | .nonStd => none

/-- Whether a `catch (std::exception &)` clause matches this exception. -/
def CppExc.isStd (e : CppExc) : Bool := e.whatMsg.isSome

namespace js

/-- Modelled from the spec: `IndexSet` lives in the external
`collection_notifications.hpp` (not under `src/`); per spec §3 each index
set is "a monotonically increasing, de-duplicated sequence of
non-negative integers", so it is modelled as the sequence itself. -/
abbrev IndexSet : Type := List Nat

/-- Modelled from the spec: `as_indexes()` yields the set's indices in
ascending order; on the sequence model it is the sequence. -/
def IndexSet.as_indexes (s : IndexSet) : List Nat := s

/-- The well-formedness invariant spec §3 states for an index set:
strictly increasing (hence de-duplicated). -/
def IndexSet.Valid (s : IndexSet) : Prop := List.Chain' (· < ·) (IndexSet.as_indexes s)

/-- `CollectionChangeSet`: four ordered index sets (spec §3); consumed
read-only by this layer. -/
structure CollectionChangeSet where
  deletions : IndexSet
  insertions : IndexSet
  modifications : IndexSet
  modifications_new : IndexSet

/-- `CollectionClass<T>::create_collection_change_set`
(js_collection.hpp lines 46-64): creates an empty object and sets the
three properties `deletions`, `insertions`, `modifications`, each the
corresponding index set expanded to an array of numbers. -/
def create_collection_change_set (change_set : CollectionChangeSet) : JsValue :=
  JsValue.obj
    [("deletions", JsValue.numArray change_set.deletions.as_indexes),
     ("insertions", JsValue.numArray change_set.insertions.as_indexes),
     ("modifications", JsValue.numArray change_set.modifications.as_indexes)]

/-- A `Protected<ObjectType>` reference: `id` is the engine object's
identity (the pointer the GC-safe handle pins), `val` stands for the
object's contents, which the `Comparator` never looks at. -/
structure ProtectedObj where
  id : Nat
  val : Nat
  deriving DecidableEq, Repr

/-- `Protected<ObjectType>::Comparator`: engine reference identity. -/
def ProtectedObj.Comparator (a b : ProtectedObj) : Bool := a.id == b.id

/-- One entry of `m_notification_tokens`: the protected reference to the
registered callback-or-hook object, paired with its notification token
(modelled by the token's id). -/
abbrev Registration : Type := ProtectedObj × Nat

/-- `ObservableCollection::remove_listener` (js_collection.hpp lines
162-168): `std::remove_if` + `erase` over `m_notification_tokens`,
dropping every pair whose stored reference compares equal (by identity)
to the argument. -/
def remove_listener (protected_function : ProtectedObj) (tokens : List Registration) :
    List Registration :=
  tokens.filter (fun token => !(ProtectedObj.Comparator token.1 protected_function))

/-- The spec's description of `remove_listener`, stated as its own
definition for refinement comparison: remove only the FIRST pair whose
stored reference is identity-equal to the argument, leaving later
registrations (even of the same reference) in place. -/
def remove_listener_spec (protected_function : ProtectedObj) :
    List Registration → List Registration
  | [] => []
  | token :: rest =>
    if ProtectedObj.Comparator token.1 protected_function then rest
    else token :: remove_listener_spec protected_function rest

/-- `emplace_back` of a new `(protected reference, token)` pair at the
end of `m_notification_tokens` (js_collection.hpp lines 102 and 158). -/
def add_listener_register (tokens : List Registration) (ref : ProtectedObj) (token : Nat) :
    List Registration :=
  tokens ++ [(ref, token)]

/-- `remove_all_listeners` (js_collection.hpp lines 170-173): clears the
token vector. -/
def remove_all_listeners (_tokens : List Registration) : List Registration := []

/-- Which registered hook a `Function<T>::call` in the notification
bridge goes through, used to label calls in a delivery trace. -/
inductive HookKind where
  | simple : HookKind
  | before : HookKind
  | after : HookKind
  | error : HookKind
  deriving DecidableEq, Repr

/-- One `Function<T>::call(ctx, fn, receiver, argc, args)` performed by
the notification bridge: the hook slot it came from, the called function
(its identity), the receiver, and the argument list. -/
structure Call where
  hook : HookKind
  fn : Nat
  receiver : Nat
  args : List JsValue

/-- The body of the simple-callback lambda registered by `add_listener`
for a function argument (js_collection.hpp lines 96-101): one call of
the protected callback with receiver `protected_this` and the two
arguments `[this, create_collection_change_set change_set]`. -/
def simple_callback_deliver (callback self : Nat) (change_set : CollectionChangeSet) :
    List Call :=
  [⟨HookKind.simple, callback, self,
    [JsValue.ref self, create_collection_change_set change_set]⟩]

/-- The `Callback` struct built by the hook-object branch of
`add_listener` (js_collection.hpp lines 105-141): the protected
subscriber and the three optional protected hook functions (a
default-constructed `Protected<FunctionType>` is null, modelled by
`none`). -/
structure Callback where
  protected_this : Nat
  before_fn : Option Nat
  after_fn : Option Nat
  error_fn : Option Nat
  deriving DecidableEq, Repr

/-- `Callback::before` (js_collection.hpp lines 111-114): calls the
`before` hook with the three arguments
`[this, to_array deletions, to_array modifications]`. -/
def Callback.beforeCall (cb : Callback) (f : Nat) (changes : CollectionChangeSet) : Call :=
  ⟨HookKind.before, f, cb.protected_this,
   [JsValue.ref cb.protected_this,
    JsValue.numArray changes.deletions.as_indexes,
    JsValue.numArray changes.modifications.as_indexes]⟩

/-- `Callback::after` (js_collection.hpp lines 115-118): calls the
`after` hook with the three arguments
`[this, to_array insertions, to_array modifications_new]`. -/
def Callback.afterCall (cb : Callback) (f : Nat) (changes : CollectionChangeSet) : Call :=
  ⟨HookKind.after, f, cb.protected_this,
   [JsValue.ref cb.protected_this,
    JsValue.numArray changes.insertions.as_indexes,
    JsValue.numArray changes.modifications_new.as_indexes]⟩

/-- `Callback::error` (js_collection.hpp lines 119-131): rethrows the
exception; `catch (const std::exception &e)` calls the `error` hook with
`[this, from_string(e.what())]`, the fallback `catch (...)` calls it
with `[this, from_string("unknown error")]` — two arguments either
way. -/
def Callback.errorCall (cb : Callback) (f : Nat) (exc : CppExc) : Call :=
  ⟨HookKind.error, f, cb.protected_this,
   [JsValue.ref cb.protected_this,
    JsValue.str (match exc.whatMsg with
      | some m => m
      | none => "unknown error")]⟩

/-- `Value::validated_to_function` (external js_types.hpp): succeeds on
a function value, throws a type error otherwise. -/
def validated_to_function : JsValue → Except String Nat
  | .fn id => .ok id
  | _ => .error "expected a function"

/-- `Object::get_property` on a plain object (external js_types.hpp):
an absent property reads as `undefined`. -/
def object_get_property (props : List (String × JsValue)) (name : String) : JsValue :=
  match props.lookup name with
  | some v => v
  | none => JsValue.undefined

/-- The `get_function` probe of the hook-object branch (js_collection.hpp
lines 146-152): read the member; if it is not `undefined`, validate it
as a function and store it in the corresponding `Protected` slot,
otherwise leave the slot null. -/
def get_function (props : List (String × JsValue)) (name : String) :
    Except String (Option Nat) :=
  match object_get_property props name with
  | .undefined => .ok none
  | v => (validated_to_function v).map some

/-- The hook-object branch of `add_listener` (js_collection.hpp lines
142-155): build the `Callback` struct by probing the object's `before`,
`after` and `error` members. -/
def build_hook_callback (self : Nat) (props : List (String × JsValue)) :
    Except String Callback := do
  let b ← get_function props "before"
  let a ← get_function props "after"
  let e ← get_function props "error"
  pure ⟨self, b, a, e⟩

/-- Modelled from the spec: the delivery of one change set to a
hook-object listener is driven by the external notification engine
(`collection_notifications.hpp`, not under `src/`); per spec §4.3 it
invokes the `before` hook and then the `after` hook, each exactly once,
and "absent hooks are simply never invoked". The calls themselves are
the `Callback::before` / `Callback::after` bodies from the source. -/
def hook_deliver (cb : Callback) (changes : CollectionChangeSet) : List Call :=
  (match cb.before_fn with
    | some f => [cb.beforeCall f changes]
    | none => []) ++
  (match cb.after_fn with
    | some f => [cb.afterCall f changes]
    | none => [])

/-- Modelled from the spec: a failure of the change-detection pipeline
(reported by the external notification engine as an exception instead of
a change set) invokes the `error` hook when present and nothing
otherwise (spec §4.3, §7(4)). The call itself is the `Callback::error`
body from the source. -/
def hook_error_deliver (cb : Callback) (exc : CppExc) : List Call :=
  match cb.error_fn with
  | some f => [cb.errorCall f exc]
  | none => []

end js

/-- Prefix test on character lists (used to state that one message
contains another as a substring). -/
def isPre : List Char → List Char → Bool
  | [], _ => true
  | _ :: _, [] => false
  | a :: as, b :: bs => a == b && isPre as bs

/-- Substring test on character lists. -/
def hasSub (pat : List Char) : List Char → Bool
  | [] => isPre pat []
  | c :: rest => isPre pat (c :: rest) || hasSub pat rest

theorem isPre_self_append (pat suf : List Char) : isPre pat (pat ++ suf) = true := by
  induction pat with
  | nil => rfl
  | cons a as ih => simp [isPre, ih]

theorem hasSub_append_middle (pre pat suf : List Char) :
    hasSub pat (pre ++ (pat ++ suf)) = true := by
  induction pre with
  | nil =>
    cases pat with
    | nil => cases suf <;> simp [hasSub, isPre]
    | cons a as =>
      simp only [List.nil_append, hasSub, Bool.or_eq_true]
      exact Or.inl (isPre_self_append (a :: as) suf)
  | cons c cs ih => simp [hasSub, ih]

namespace jsc

/-- The single-quote character used by the read-only-property message. -/
def squote : String := String.singleton (Char.ofNat 39)

/-- `wrap<MethodType>` (jsc_class.hpp lines 305-315): invoke the typed
callback into a fresh return-value holder (initially `undefined`); a
`std::exception` is converted to an engine exception value in the
error-out slot; any other exception is not caught. -/
def wrapMethod (r : Except CppExc JsValue) : Except CppExc (JsValue × Option String) :=
  match r with
  | .ok v => .ok (v, none)
  | .error e =>
    match e.whatMsg with
    | some m => .ok (JsValue.undefined, some m)
    | none => .error e

/-- `wrap<PropertyGetterType>` (jsc_class.hpp lines 317-327): same
conversion shape as the method trampoline. -/
def wrapPropertyGetter (r : Except CppExc JsValue) : Except CppExc (JsValue × Option String) :=
  match r with
  | .ok v => .ok (v, none)
  | .error e =>
    match e.whatMsg with
    | some m => .ok (JsValue.undefined, some m)
    | none => .error e

/-- `wrap<PropertySetterType>` (jsc_class.hpp lines 329-339): returns
`true` on normal return, converts a `std::exception` into the error-out
slot and returns `false`. -/
def wrapPropertySetter (r : Except CppExc Unit) : Except CppExc (Bool × Option String) :=
  match r with
  | .ok _ => .ok (true, none)
  | .error e =>
    match e.whatMsg with
    | some m => .ok (false, some m)
    | none => .error e

/-- `wrap<IndexPropertyGetterType>` (jsc_class.hpp lines 341-355):
`std::out_of_range` is converted to `undefined` with no exception set;
any other `std::exception` goes to the error-out slot. -/
def wrapIndexGetter (r : Except CppExc JsValue) : Except CppExc (JsValue × Option String) :=
  match r with
  | .ok v => .ok (v, none)
  | .error (.outOfRange _) => .ok (JsValue.undefined, none)
  | .error e =>
    match e.whatMsg with
    | some m => .ok (JsValue.undefined, some m)
    | none => .error e

/-- `wrap<IndexPropertySetterType>` (jsc_class.hpp lines 357-366):
forwards the typed callback's boolean; converts a `std::exception` into
the error-out slot and returns `false`. -/
def wrapIndexSetter (r : Except CppExc Bool) : Except CppExc (Bool × Option String) :=
  match r with
  | .ok b => .ok (b, none)
  | .error e =>
    match e.whatMsg with
    | some m => .ok (false, some m)
    | none => .error e

/-- `wrap<StringPropertyGetterType>` (jsc_class.hpp lines 368-378). -/
def wrapStringGetter (r : Except CppExc JsValue) : Except CppExc (JsValue × Option String) :=
  match r with
  | .ok v => .ok (v, none)
  | .error e =>
    match e.whatMsg with
    | some m => .ok (JsValue.undefined, some m)
    | none => .error e

/-- `wrap<StringPropertySetterType>` (jsc_class.hpp lines 380-389). -/
def wrapStringSetter (r : Except CppExc Bool) : Except CppExc (Bool × Option String) :=
  match r with
  | .ok b => .ok (b, none)
  | .error e =>
    match e.whatMsg with
    | some m => .ok (false, some m)
    | none => .error e

/-- `wrap<StringPropertyEnumeratorType>` (jsc_class.hpp lines 391-397):
invokes the typed callback and adds the returned names to the
accumulator. There is no try/catch and the engine callback signature has
no error-out parameter, so an exception thrown by the typed callback
propagates out of the trampoline unconverted. -/
def wrapStringEnumerator (r : Except CppExc (List String)) : Except CppExc (List String) :=
  match r with
  | .ok names => .ok names
  | .error e => .error e

/-- The two error kinds `validated_positive_index` can throw. -/
inductive ParseErr where
  | outOfRange (msg : String) : ParseErr
  | invalidArgument (msg : String) : ParseErr
  deriving DecidableEq, Repr

/-- Numeric value of a digit string. -/
def digitsToNat (cs : List Char) : Nat :=
  cs.foldl (fun n c => n * 10 + (c.toNat - 48)) 0

/-- Modelled from the spec: `validated_positive_index` lives in
`js_util.hpp`, which is not under `src/`; per spec §4.1 a property name
either "parses as a non-negative integer" (success), parses as a
negative integer (`std::out_of_range`), or is not a number
(`std::invalid_argument`). -/
def validated_positive_index (s : String) : Except ParseErr Nat :=
  let cs := s.toList
  if cs.isEmpty then .error (.invalidArgument "invalid argument")
  else if cs.all Char.isDigit then .ok (digitsToNat cs)
  else if cs.head? == some (Char.ofNat 45) && !cs.tail.isEmpty && cs.tail.all Char.isDigit then
    .error (.outOfRange ("Index " ++ s ++ " cannot be less than zero."))
  else .error (.invalidArgument "invalid argument")

/-- The per-engine class built from a `ClassDescriptor`, restricted to
the accessor slots the property entry points consult. Each stored
accessor is the engine-ABI-shaped callback (in the source, the
materialized `wrap<...>` instantiation): it receives the native object's
state `σ` plus its arguments and either returns the engine result
together with the error-out slot, or lets a C++ exception escape.
`get_length` is modelled from the spec: `Object::validated_get_length`
(js_types.hpp, not under `src/`) is "a validated length query on the
instance" that can fail with a native exception. -/
structure JscClass (σ : Type) where
  index_getter : Option (σ → Nat → Except CppExc (JsValue × Option String))
  index_setter : Option (σ → Nat → JsValue → Except CppExc (Bool × σ × Option String))
  string_getter : Option (σ → String → Except CppExc (JsValue × Option String))
  string_setter : Option (σ → String → JsValue → Except CppExc (Bool × σ × Option String))
  string_enumerator : Option (σ → Except CppExc (List String))
  get_length : σ → Except CppExc Nat

/-- `ObjectWrap::get_property` (jsc_class.hpp lines 72-90): if an index
getter exists, parse the name as an index; `std::out_of_range`
(negative index, or an out-of-bounds getter) yields `undefined` with no
exception; `std::invalid_argument` (non-numeric name) falls through to
the string getter; with neither path applicable the function returns
`nullptr` (`none`), deferring to engine defaults. -/
def get_property {σ : Type} (cls : JscClass σ) (st : σ) (property : String) :
    Except CppExc (Option (JsValue × Option String)) :=
  let stringPath : Except CppExc (Option (JsValue × Option String)) :=
    match cls.string_getter with
    | some sg => (sg st property).map some
    | none => .ok none
  match cls.index_getter with
  | some ig =>
    match validated_positive_index property with
    | .ok index =>
      match ig st index with
      | .ok res => .ok (some res)
      | .error (.outOfRange _) => .ok (some (JsValue.undefined, none))
      | .error (.invalidArgument _) => stringPath
      | .error e => .error e
    | .error (.outOfRange _) => .ok (some (JsValue.undefined, none))
    | .error (.invalidArgument _) => stringPath
  | none => stringPath

/-- `ObjectWrap::set_property` (jsc_class.hpp lines 92-119): the index
branch runs when an index setter or getter exists; a parsed index with
no setter produces the read-only-index error (`Cannot assigned to read
only index N`, sic) with `false` and no call into native code; a
negative index produces its `std::out_of_range` message as the engine
exception; a non-numeric name falls through to the string setter; with
no applicable path the function returns `false` with no exception. -/
def set_property {σ : Type} (cls : JscClass σ) (st : σ) (property : String) (value : JsValue) :
    Except CppExc (Bool × σ × Option String) :=
  let stringPath : Except CppExc (Bool × σ × Option String) :=
    match cls.string_setter with
    | some ss => ss st property value
    | none => .ok (false, st, none)
  if cls.index_setter.isSome || cls.index_getter.isSome then
    match validated_positive_index property with
    | .ok index =>
      match cls.index_setter with
      | some iset =>
        match iset st index value with
        | .ok res => .ok res
        | .error (.outOfRange m) => .ok (false, st, some m)
        | .error (.invalidArgument _) => stringPath
        | .error e => .error e
      | none =>
        .ok (false, st, some ("Cannot assigned to read only index " ++ toString index))
    | .error (.outOfRange m) => .ok (false, st, some m)
    | .error (.invalidArgument _) => stringPath
  else stringPath

/-- `ObjectWrap::set_readonly_property` (jsc_class.hpp lines 121-124):
the setter installed for a property declared without one; it only sets
the engine exception naming the property and returns `false`, leaving
the native object untouched. -/
def set_readonly_property {σ : Type} (st : σ) (property : String) (_value : JsValue) :
    Bool × σ × Option String :=
  (false, st,
   some ("Cannot assign to read only property " ++ squote ++ property ++ squote))

/-- `ObjectWrap::get_property_names` (jsc_class.hpp lines 126-143): with
an index getter, query the instance's length and add the numeric keys
`0..length-1`; a `std::exception` from the length query is swallowed
(the numeric phase adds nothing); then, if present, the string
enumerator adds its names. The enumerator call sits outside the
try/catch, so an exception it lets escape propagates out of
`get_property_names`. -/
def get_property_names {σ : Type} (cls : JscClass σ) (st : σ) : Except CppExc (List String) :=
  let numeric : Except CppExc (List String) :=
    if cls.index_getter.isSome then
      match cls.get_length st with
      | .ok length => .ok ((List.range length).map (fun i => toString i))
      | .error e => if e.isStd then .ok [] else .error e
    else .ok []
  match numeric with
  | .error e => .error e
  | .ok numericNames =>
    match cls.string_enumerator with
    | some en =>
      match en st with
      | .ok names => .ok (numericNames ++ names)
      | .error e => .error e
    | none => .ok numericNames

/-- The state of one `ObjectWrap` instance: `native` is the owned
`m_object` pointer (`none` = null, the empty state). -/
structure WrapState where
  native : Option Nat
  deriving DecidableEq, Repr

/-- The outcome of the constructor trampoline: the returned instance
(`none` when the trampoline returns `nullptr`) and the error-out
slot. -/
structure ConstructOutcome where
  result : Option WrapState
  exception : Option String
  deriving DecidableEq, Repr

/-- `ObjectWrap::construct` (jsc_class.hpp lines 52-66): with no
descriptor constructor, set the `Illegal constructor` exception and
return `nullptr`; otherwise allocate an empty wrapped instance, run the
constructor callback on it, convert a thrown `std::exception` into the
engine exception value while still returning the allocated instance
(left empty); a non-`std::exception` throw is not caught. -/
def construct (ctor : Option (WrapState → List JsValue → Except CppExc WrapState))
    (args : List JsValue) : Except CppExc ConstructOutcome :=
  match ctor with
  | none => .ok ⟨none, some "Illegal constructor"⟩
  | some c =>
    let this_object : WrapState := ⟨none⟩
    match c this_object args with
    | .ok s => .ok ⟨some s, none⟩
    | .error e =>
      match e.whatMsg with
      | some m => .ok ⟨some this_object, some m⟩
      | none => .error e

/-- Ownership bookkeeping for `ObjectWrap::operator=`: the currently
owned native pointer and the trace of native objects destroyed so
far. -/
structure OwnState where
  owned : Option Nat
  destroyed : List Nat
  deriving DecidableEq, Repr

/-- `ObjectWrap::operator=` (jsc_class.hpp lines 255-260): when the
incoming pointer differs from `m_object.get()`, the owned object is
replaced (destroying the previous one, if any); when it is the same
pointer, nothing happens. -/
def assign (st : OwnState) (object : Option Nat) : OwnState :=
  if st.owned = object then st
  else { owned := object, destroyed := st.destroyed ++ st.owned.toList }

end jsc

theorem hasSub_string_middle (pre pat suf : String) :
    hasSub pat.toList (pre ++ pat ++ suf).toList = true := by
  have h : (pre ++ pat ++ suf).toList = pre.toList ++ (pat.toList ++ suf.toList) := by
    simp [String.toList, String.data_append]
  rw [h]
  exact hasSub_append_middle pre.toList pat.toList suf.toList

/-- C1 counterexample: register the same protected reference (identity
`1`) twice, then `remove_listener` it. The code's `std::remove_if` +
`erase` drops both pairs, while the claim — removing exactly the first
matching pair, stated by `remove_listener_spec` — would leave the second
registration in place. -/
theorem remove_listener_first_only_false :
    js.remove_listener ⟨1, 7⟩ [(⟨1, 7⟩, 10), (⟨1, 7⟩, 11)] = [] ∧
    js.remove_listener_spec ⟨1, 7⟩ [(⟨1, 7⟩, 10), (⟨1, 7⟩, 11)] = [(⟨1, 7⟩, 11)] ∧
    ([] : List js.Registration) ≠ [(⟨1, 7⟩, 11)] :=
  ⟨rfl, rfl, by decide⟩

/-- C1 (amended): `remove_listener(f)` removes every `(registration,
token)` pair whose stored reference is identity-equal to `f` — not just
the first — and keeps every other pair in its original order; matching
uses only the reference identity of the originally registered object,
never value equality (any reference with the same identity removes the
same pairs, whatever its value). -/
theorem remove_listener_removes_all_matches (f : js.ProtectedObj)
    (tokens : List js.Registration) :
    (∀ p ∈ js.remove_listener f tokens, p.1.id ≠ f.id) ∧
    (∀ p ∈ tokens, p.1.id ≠ f.id → p ∈ js.remove_listener f tokens) ∧
    List.Sublist (js.remove_listener f tokens) tokens ∧
    (∀ g : js.ProtectedObj, g.id = f.id →
      js.remove_listener g tokens = js.remove_listener f tokens) := by
  refine ⟨?_, ?_, ?_, ?_⟩
  · intro p hp
    have h := List.of_mem_filter hp
    simpa [js.ProtectedObj.Comparator] using h
  · intro p hp hne
    refine List.mem_filter.mpr ⟨hp, ?_⟩
    simpa [js.ProtectedObj.Comparator] using hne
  · exact List.filter_sublist tokens
  · intro g hg
    unfold js.remove_listener
    simp [js.ProtectedObj.Comparator, hg]

/-- C1 witness: a pair whose reference has a different identity (but the
same value `7`) survives the removal. -/
theorem remove_listener_removes_all_matches_witness :
    ((⟨2, 7⟩, 11) : js.Registration) ∈
      js.remove_listener ⟨1, 7⟩ [(⟨1, 7⟩, 10), (⟨2, 7⟩, 11)] := by
  have h := remove_listener_removes_all_matches ⟨1, 7⟩ [(⟨1, 7⟩, 10), (⟨2, 7⟩, 11)]
  exact h.2.1 (⟨2, 7⟩, 11) (by decide) (by decide)

/-- C2: delivering a change set to a simple-callback listener performs
exactly one call of the callback, with receiver `self` and exactly the
two arguments `(self, change-set object)`; the change-set object has
exactly the three properties `deletions`, `insertions`, `modifications`,
each the corresponding index set expanded to its index array, which is
strictly ascending for valid index sets. -/
theorem simple_callback_delivery (cs : js.CollectionChangeSet) (cb self : Nat)
    (hd : cs.deletions.Valid) (hi : cs.insertions.Valid) (hm : cs.modifications.Valid) :
    js.simple_callback_deliver cb self cs =
      [⟨js.HookKind.simple, cb, self,
        [JsValue.ref self, js.create_collection_change_set cs]⟩] ∧
    (js.simple_callback_deliver cb self cs).length = 1 ∧
    (∀ c ∈ js.simple_callback_deliver cb self cs, c.args.length = 2) ∧
    js.create_collection_change_set cs =
      JsValue.obj
        [("deletions", JsValue.numArray cs.deletions.as_indexes),
         ("insertions", JsValue.numArray cs.insertions.as_indexes),
         ("modifications", JsValue.numArray cs.modifications.as_indexes)] ∧
    List.Chain' (· < ·) cs.deletions.as_indexes ∧
    List.Chain' (· < ·) cs.insertions.as_indexes ∧
    List.Chain' (· < ·) cs.modifications.as_indexes := by
  refine ⟨rfl, rfl, ?_, rfl, hd, hi, hm⟩
  intro c hc
  have h : c = ⟨js.HookKind.simple, cb, self,
      [JsValue.ref self, js.create_collection_change_set cs]⟩ := by
    simpa [js.simple_callback_deliver] using hc
  rw [h]
  rfl

/-- C2 witness: the claim's round trip at
`ChangeSet{deletions:[2], insertions:[0,1], modifications:[],
modifications_new:[]}`. -/
theorem simple_callback_delivery_witness :
    (⟨[2], [0, 1], [], []⟩ : js.CollectionChangeSet).deletions.Valid ∧
    (⟨[2], [0, 1], [], []⟩ : js.CollectionChangeSet).insertions.Valid ∧
    (⟨[2], [0, 1], [], []⟩ : js.CollectionChangeSet).modifications.Valid ∧
    js.simple_callback_deliver 5 9 ⟨[2], [0, 1], [], []⟩ =
      [⟨js.HookKind.simple, 5, 9,
        [JsValue.ref 9,
         JsValue.obj
           [("deletions", JsValue.numArray [2]),
            ("insertions", JsValue.numArray [0, 1]),
            ("modifications", JsValue.numArray [])]]⟩] := by
  have hd : (⟨[2], [0, 1], [], []⟩ : js.CollectionChangeSet).deletions.Valid := by
    simp [js.IndexSet.Valid, js.IndexSet.as_indexes]
  have hi : (⟨[2], [0, 1], [], []⟩ : js.CollectionChangeSet).insertions.Valid := by
    simp [js.IndexSet.Valid, js.IndexSet.as_indexes]
  have hm : (⟨[2], [0, 1], [], []⟩ : js.CollectionChangeSet).modifications.Valid := by
    simp [js.IndexSet.Valid, js.IndexSet.as_indexes]
  have h := simple_callback_delivery ⟨[2], [0, 1], [], []⟩ 5 9 hd hi hm
  exact ⟨hd, hi, hm, h.1⟩

/-- C3: probing a hook object that has only `before` and `after` members
stores those two functions and leaves the `error` slot null; delivering
one change set then invokes `before` exactly once with `(self,
deletions, modifications)` and `after` exactly once with `(self,
insertions, modifications_new)`, in before-then-after order; and a hook
slot that is absent is never invoked (no `before`-labelled call without
a `before` member, no `after`-labelled call without an `after` member,
and no call at all from the error path without an `error` member). -/
theorem hook_object_delivery (b a self : Nat) (cs : js.CollectionChangeSet) :
    js.build_hook_callback self [("before", JsValue.fn b), ("after", JsValue.fn a)] =
      .ok ⟨self, some b, some a, none⟩ ∧
    js.hook_deliver ⟨self, some b, some a, none⟩ cs =
      [⟨js.HookKind.before, b, self,
        [JsValue.ref self,
         JsValue.numArray cs.deletions.as_indexes,
         JsValue.numArray cs.modifications.as_indexes]⟩,
       ⟨js.HookKind.after, a, self,
        [JsValue.ref self,
         JsValue.numArray cs.insertions.as_indexes,
         JsValue.numArray cs.modifications_new.as_indexes]⟩] ∧
    (∀ cb : js.Callback, cb.before_fn = none →
      ∀ cs2 : js.CollectionChangeSet, ∀ c ∈ js.hook_deliver cb cs2,
        c.hook ≠ js.HookKind.before) ∧
    (∀ cb : js.Callback, cb.after_fn = none →
      ∀ cs2 : js.CollectionChangeSet, ∀ c ∈ js.hook_deliver cb cs2,
        c.hook ≠ js.HookKind.after) ∧
    (∀ cb : js.Callback, cb.error_fn = none →
      ∀ e : CppExc, js.hook_error_deliver cb e = []) := by
  refine ⟨rfl, rfl, ?_, ?_, ?_⟩
  · intro cb hb cs2 c hc
    unfold js.hook_deliver at hc
    rw [hb] at hc
    simp only [List.nil_append] at hc
    cases ha : cb.after_fn with
    | none => rw [ha] at hc; simp at hc
    | some f =>
      rw [ha] at hc
      simp only [List.mem_singleton] at hc
      rw [hc]
      simp [js.Callback.afterCall]
  · intro cb ha cs2 c hc
    unfold js.hook_deliver at hc
    rw [ha] at hc
    simp only [List.append_nil] at hc
    cases hb : cb.before_fn with
    | none => rw [hb] at hc; simp at hc
    | some f =>
      rw [hb] at hc
      simp only [List.mem_singleton] at hc
      rw [hc]
      simp [js.Callback.beforeCall]
  · intro cb he e
    unfold js.hook_error_deliver
    rw [he]

/-- C3 witness: probing and delivery at concrete hooks, plus the absent
`error` hook of that callback producing no call on a pipeline
failure. -/
theorem hook_object_delivery_witness :
    js.build_hook_callback 4 [("before", JsValue.fn 1), ("after", JsValue.fn 2)] =
      .ok ⟨4, some 1, some 2, none⟩ ∧
    js.hook_deliver ⟨4, some 1, some 2, none⟩ ⟨[0], [1], [2], [3]⟩ =
      [⟨js.HookKind.before, 1, 4,
        [JsValue.ref 4, JsValue.numArray [0], JsValue.numArray [2]]⟩,
       ⟨js.HookKind.after, 2, 4,
        [JsValue.ref 4, JsValue.numArray [1], JsValue.numArray [3]]⟩] ∧
    js.hook_error_deliver ⟨4, some 1, some 2, none⟩ CppExc.nonStd = [] := by
  have h := hook_object_delivery 1 2 4 ⟨[0], [1], [2], [3]⟩
  exact ⟨h.1, h.2.1, h.2.2.2.2 ⟨4, some 1, some 2, none⟩ rfl CppExc.nonStd⟩

/-- C4: when a hook-object listener has an `error` hook, a
change-pipeline failure invokes it exactly once with exactly two
arguments — the collection instance and a message string that is the
failure's `what()` description when it derives from `std::exception`
and the literal `"unknown error"` otherwise. -/
theorem error_hook_message (cb : js.Callback) (f : Nat) (hf : cb.error_fn = some f)
    (exc : CppExc) :
    js.hook_error_deliver cb exc =
      [⟨js.HookKind.error, f, cb.protected_this,
        [JsValue.ref cb.protected_this,
         JsValue.str (match exc.whatMsg with
           | some m => m
           | none => "unknown error")]⟩] ∧
    (∀ c ∈ js.hook_error_deliver cb exc, c.args.length = 2) ∧
    (∀ m : String, exc.whatMsg = some m →
      js.hook_error_deliver cb exc =
        [⟨js.HookKind.error, f, cb.protected_this,
          [JsValue.ref cb.protected_this, JsValue.str m]⟩]) ∧
    (exc.whatMsg = none →
      js.hook_error_deliver cb exc =
        [⟨js.HookKind.error, f, cb.protected_this,
          [JsValue.ref cb.protected_this, JsValue.str "unknown error"]⟩]) := by
  have hbase : js.hook_error_deliver cb exc =
      [⟨js.HookKind.error, f, cb.protected_this,
        [JsValue.ref cb.protected_this,
         JsValue.str (match exc.whatMsg with
           | some m => m
           | none => "unknown error")]⟩] := by
    unfold js.hook_error_deliver
    rw [hf]
    rfl
  refine ⟨hbase, ?_, ?_, ?_⟩
  · intro c hc
    rw [hbase] at hc
    simp only [List.mem_singleton] at hc
    rw [hc]
    rfl
  · intro m hm
    rw [hbase, hm]
  · intro hm
    rw [hbase, hm]

/-- C4 witness: a `std::exception` failure carries its `what()` message;
a foreign exception produces the literal `"unknown error"`. -/
theorem error_hook_message_witness :
    js.hook_error_deliver ⟨0, none, none, some 3⟩ (CppExc.stdExc "pipeline broke") =
      [⟨js.HookKind.error, 3, 0, [JsValue.ref 0, JsValue.str "pipeline broke"]⟩] ∧
    js.hook_error_deliver ⟨7, none, none, some 8⟩ CppExc.nonStd =
      [⟨js.HookKind.error, 8, 7, [JsValue.ref 7, JsValue.str "unknown error"]⟩] :=
  ⟨(error_hook_message ⟨0, none, none, some 3⟩ 3 rfl (CppExc.stdExc "pipeline broke")).2.2.1
      "pipeline broke" rfl,
   (error_hook_message ⟨7, none, none, some 8⟩ 8 rfl CppExc.nonStd).2.2.2 rfl⟩

/-- A typed index getter of length 2 used to exercise the index-read
path: values below the length, `std::out_of_range` at or above it. -/
def sampleIndexGetter (i : Nat) : Except CppExc JsValue :=
  if i < 2 then .ok (JsValue.num (10 * i)) else .error (.outOfRange "index out of bounds")

/-- A class whose only accessor is `sampleIndexGetter` behind the
index-getter trampoline. -/
def sampleIndexClass : jsc.JscClass Unit where
  index_getter := some (fun _ i => jsc.wrapIndexGetter (sampleIndexGetter i))
  index_setter := none
  string_getter := none
  string_setter := none
  string_enumerator := none
  get_length := fun _ => .ok 2

/-- C5: for a class whose index getter has length `L` (returning a value
below `L` and signalling `std::out_of_range` at or above it), reading a
property name that parses as index `i` through `get_property` — and
reading index `i` through the index-getter trampoline directly — yields
the getter's value with no exception when `i < L`, and the `undefined`
value with no exception when `L ≤ i`; neither case raises any exception
to scripting code. -/
theorem index_read_in_and_out_of_range (σ : Type) (cls : jsc.JscClass σ) (st : σ)
    (F : Nat → Except CppExc JsValue) (L : Nat) (g : Nat → JsValue) (msg : String)
    (hcls : cls.index_getter = some (fun _ i => jsc.wrapIndexGetter (F i)))
    (hF : ∀ i, F i = if i < L then .ok (g i) else .error (.outOfRange msg))
    (name : String) (i : Nat) (hname : jsc.validated_positive_index name = .ok i) :
    (L ≤ i →
      jsc.get_property cls st name = .ok (some (JsValue.undefined, none)) ∧
      jsc.wrapIndexGetter (F i) = .ok (JsValue.undefined, none)) ∧
    (i < L →
      jsc.get_property cls st name = .ok (some (g i, none)) ∧
      jsc.wrapIndexGetter (F i) = .ok (g i, none)) := by
  have hFi := hF i
  constructor
  · intro h
    rw [if_neg (Nat.not_lt.mpr h)] at hFi
    have htramp : jsc.wrapIndexGetter (F i) = .ok (JsValue.undefined, none) := by
      rw [hFi]
      rfl
    refine ⟨?_, htramp⟩
    unfold jsc.get_property
    rw [hcls, hname]
    simp only
    rw [htramp]
  · intro h
    rw [if_pos h] at hFi
    have htramp : jsc.wrapIndexGetter (F i) = .ok (g i, none) := by
      rw [hFi]
      rfl
    refine ⟨?_, htramp⟩
    unfold jsc.get_property
    rw [hcls, hname]
    simp only
    rw [htramp]

/-- C5 witness: on `sampleIndexClass` (length 2), reading `"1"` yields
the getter's value and reading `"5"` yields `undefined`, both with no
exception. -/
theorem index_read_witness :
    jsc.validated_positive_index "1" = .ok 1 ∧
    jsc.validated_positive_index "5" = .ok 5 ∧ 1 < 2 ∧ 2 ≤ 5 ∧
    jsc.get_property sampleIndexClass () "1" = .ok (some (JsValue.num 10, none)) ∧
    jsc.get_property sampleIndexClass () "5" = .ok (some (JsValue.undefined, none)) := by
  have h1 := index_read_in_and_out_of_range Unit sampleIndexClass () sampleIndexGetter 2
    (fun i => JsValue.num (10 * i)) "index out of bounds" rfl (fun i => rfl) "1" 1 rfl
  have h5 := index_read_in_and_out_of_range Unit sampleIndexClass () sampleIndexGetter 2
    (fun i => JsValue.num (10 * i)) "index out of bounds" rfl (fun i => rfl) "5" 5 rfl
  exact ⟨rfl, rfl, by decide, by decide, (h1.2 (by decide)).1, (h5.1 (by decide)).1⟩

/-- C6 counterexample: the string-enumerator trampoline (jsc_class.hpp
lines 391-397) has no try/catch and no error-out parameter, so an
exception thrown by the typed native callback — here a `std::exception`
with message `"boom"` — propagates out of the trampoline across the ABI
boundary instead of being caught and converted; the claim that every
trampoline catches every native exception is therefore false. -/
theorem enumerator_trampoline_lets_exception_escape :
    jsc.wrapStringEnumerator (Except.error (CppExc.stdExc "boom")) =
      Except.error (CppExc.stdExc "boom") ∧
    jsc.wrapMethod (Except.error CppExc.nonStd) = Except.error CppExc.nonStd :=
  ⟨rfl, rfl⟩

/-- C6 (amended): each of the seven trampolines that have an error-out
parameter (method, getter, setter, index-getter, index-setter,
string-getter, string-setter) catches every exception derived from
`std::exception` and converts it into the engine error representation
in the error-out channel (the index getter converting
`std::out_of_range` to `undefined` with no exception instead); a normal
return never sets the channel. Exceptions not derived from
`std::exception`, and any exception reaching the string-enumerator
trampoline, are not caught and propagate across the ABI boundary. -/
theorem trampolines_convert_std_exceptions (e : CppExc) (m : String)
    (hm : e.whatMsg = some m) :
    jsc.wrapMethod (.error e) = .ok (JsValue.undefined, some m) ∧
    jsc.wrapPropertyGetter (.error e) = .ok (JsValue.undefined, some m) ∧
    jsc.wrapPropertySetter (.error e) = .ok (false, some m) ∧
    ((∀ s, e ≠ CppExc.outOfRange s) →
      jsc.wrapIndexGetter (.error e) = .ok (JsValue.undefined, some m)) ∧
    (∀ s, e = CppExc.outOfRange s →
      jsc.wrapIndexGetter (.error e) = .ok (JsValue.undefined, none)) ∧
    jsc.wrapIndexSetter (.error e) = .ok (false, some m) ∧
    jsc.wrapStringGetter (.error e) = .ok (JsValue.undefined, some m) ∧
    jsc.wrapStringSetter (.error e) = .ok (false, some m) ∧
    (∀ v : JsValue, jsc.wrapMethod (.ok v) = .ok (v, none)) ∧
    (∀ names : List String, jsc.wrapStringEnumerator (.ok names) = .ok names) := by
  cases e with
  | outOfRange s =>
    cases hm
    refine ⟨rfl, rfl, rfl, ?_, ?_, rfl, rfl, rfl, fun v => rfl, fun names => rfl⟩
    · intro habs
      exact absurd rfl (habs _)
    · intro s2 _
      rfl
  | invalidArgument s =>
    cases hm
    refine ⟨rfl, rfl, rfl, fun _ => rfl, ?_, rfl, rfl, rfl, fun v => rfl, fun names => rfl⟩
    intro s2 h2
    exact absurd h2 (by simp)
  | stdExc s =>
    cases hm
    refine ⟨rfl, rfl, rfl, fun _ => rfl, ?_, rfl, rfl, rfl, fun v => rfl, fun names => rfl⟩
    intro s2 h2
    exact absurd h2 (by simp)
  | nonStd => cases hm

/-- C6 witness: the amended conversion at a concrete `std::exception`
and at a concrete `std::out_of_range`. -/
theorem trampolines_convert_std_exceptions_witness :
    (CppExc.stdExc "bad cast").whatMsg = some "bad cast" ∧
    jsc.wrapMethod (.error (CppExc.stdExc "bad cast")) =
      .ok (JsValue.undefined, some "bad cast") ∧
    jsc.wrapIndexGetter (.error (CppExc.outOfRange "oob")) =
      .ok (JsValue.undefined, none) := by
  have h1 := trampolines_convert_std_exceptions (CppExc.stdExc "bad cast") "bad cast" rfl
  have h2 := trampolines_convert_std_exceptions (CppExc.outOfRange "oob") "oob" rfl
  exact ⟨rfl, h1.1, h2.2.2.2.2.1 "oob" rfl⟩

/-- A class with an index getter but no index setter, used to exercise
the read-only-index write path. -/
def readOnlyIndexClass : jsc.JscClass Unit where
  index_getter := some (fun _ _ => .ok (JsValue.num 0, none))
  index_setter := none
  string_getter := none
  string_setter := none
  string_enumerator := none
  get_length := fun _ => .ok 1

/-- C7 counterexample: writing index 3 on a class with an index getter
and no index setter produces the message `Cannot assigned to read only
index 3` (sic) — which does not contain the claim's quoted wording
`assign to read-only index` — so the error is not a "cannot assign to
read-only index N" error as literally claimed. -/
theorem read_only_index_message_differs :
    jsc.set_property readOnlyIndexClass () "3" (JsValue.num 0) =
      .ok (false, (), some "Cannot assigned to read only index 3") ∧
    hasSub "assign to read-only index".toList
      "Cannot assigned to read only index 3".toList = false :=
  ⟨rfl, by decide⟩

/-- C7 (amended): a write to a property declared with a getter but no
setter fails (`false`, no setter invoked, the object state returned
unchanged) with the error `Cannot assign to read only property
'<name>'`, whose message contains the property's name; a write to index
N on a class with an index getter but no index setter fails with the
error `Cannot assigned to read only index N` (sic — not the spec's
quoted "cannot assign to read-only index N"), whose message contains
the index, again with the object state unchanged and no native setter
run. -/
theorem read_only_write_rejected (σ : Type) (cls : jsc.JscClass σ) (st : σ)
    (property : String) (value : JsValue) (index : Nat) (name : String)
    (hgetter : cls.index_getter.isSome = true) (hsetter : cls.index_setter = none)
    (hname : jsc.validated_positive_index name = .ok index) :
    jsc.set_property cls st name value =
      .ok (false, st, some ("Cannot assigned to read only index " ++ toString index)) ∧
    hasSub (toString index).toList
      ("Cannot assigned to read only index " ++ toString index).toList = true ∧
    jsc.set_readonly_property st property value =
      (false, st,
       some ("Cannot assign to read only property " ++ jsc.squote ++ property ++ jsc.squote)) ∧
    hasSub property.toList
      ("Cannot assign to read only property " ++ jsc.squote ++ property ++ jsc.squote).toList
      = true := by
  refine ⟨?_, ?_, rfl, ?_⟩
  · unfold jsc.set_property
    rw [hsetter, hname]
    simp [hgetter]
  · have h := hasSub_string_middle "Cannot assigned to read only index " (toString index) ""
    rwa [String.append_empty] at h
  · exact hasSub_string_middle ("Cannot assign to read only property " ++ jsc.squote)
      property jsc.squote

/-- C7 witness: the amended behaviour at index 3 and at property
`tableName`. -/
theorem read_only_write_rejected_witness :
    jsc.validated_positive_index "3" = .ok 3 ∧
    jsc.set_property readOnlyIndexClass () "3" (JsValue.num 5) =
      .ok (false, (), some "Cannot assigned to read only index 3") ∧
    hasSub "tableName".toList
      ("Cannot assign to read only property " ++ jsc.squote ++ "tableName" ++ jsc.squote).toList
      = true := by
  have h := read_only_write_rejected Unit readOnlyIndexClass () "tableName"
    (JsValue.num 5) 3 "3" rfl rfl rfl
  exact ⟨rfl, h.1, h.2.2.2⟩

/-- C8 counterexample: `construct` catches only `std::exception`
(jsc_class.hpp line 62), so a constructor callback that throws a
condition not derived from `std::exception` escapes the trampoline
untranslated instead of becoming an engine-level exception value. -/
theorem construct_nonstd_throw_escapes :
    jsc.construct (some (fun _ _ => Except.error CppExc.nonStd)) [] =
      Except.error CppExc.nonStd :=
  rfl

/-- C8 (amended): constructing from a descriptor with no constructor
callback sets the engine exception `Illegal constructor` (and returns
no instance); when the constructor callback throws an exception derived
from `std::exception`, it is translated into an engine-level exception
value carrying the exception's `what()` message and the already
allocated wrapped instance is returned in its empty state (native
object pointer null), not torn down; a throw not derived from
`std::exception` is not caught and propagates. -/
theorem construct_error_translation
    (ctor : jsc.WrapState → List JsValue → Except CppExc jsc.WrapState)
    (args : List JsValue) (e : CppExc) (m : String)
    (hthrow : ctor ⟨none⟩ args = Except.error e) (hm : e.whatMsg = some m) :
    jsc.construct none args = .ok ⟨none, some "Illegal constructor"⟩ ∧
    jsc.construct (some ctor) args = .ok ⟨some ⟨none⟩, some m⟩ := by
  constructor
  · rfl
  · simp [jsc.construct, hthrow, hm]

/-- C8 witness: a constructor throwing `std::exception("ctor failed")`
yields the allocated empty instance and that message as the engine
exception. -/
theorem construct_error_translation_witness :
    jsc.construct (some (fun _ _ => Except.error (CppExc.stdExc "ctor failed"))) [] =
      .ok ⟨some ⟨none⟩, some "ctor failed"⟩ ∧
    jsc.construct none [] = .ok ⟨none, some "Illegal constructor"⟩ := by
  have h := construct_error_translation (fun _ _ => Except.error (CppExc.stdExc "ctor failed"))
    [] (CppExc.stdExc "ctor failed") "ctor failed" rfl rfl
  exact ⟨h.2, h.1⟩

/-- A class whose string enumerator's typed callback throws: its
exception reaches `get_property_names` uncaught (the enumerator call
sits outside the try/catch of jsc_class.hpp lines 126-143). -/
def throwingEnumClass : jsc.JscClass Unit where
  index_getter := some (fun _ _ => .ok (JsValue.num 0, none))
  index_setter := none
  string_getter := none
  string_setter := none
  string_enumerator := some (fun _ => jsc.wrapStringEnumerator
    (Except.error (CppExc.stdExc "enumeration failed")))
  get_length := fun _ => .ok 1

/-- A class with an index getter of length 2 and a string enumerator
yielding two names. -/
def sampleEnumClass : jsc.JscClass Unit where
  index_getter := some (fun _ _ => .ok (JsValue.num 0, none))
  index_setter := none
  string_getter := none
  string_setter := none
  string_enumerator := some (fun _ => .ok ["alpha", "beta"])
  get_length := fun _ => .ok 2

/-- C9 counterexample: on a class with an index accessor whose string
enumerator's typed callback throws, `get_property_names` lets the
exception propagate to the engine — property enumeration does raise —
so the claim that enumeration never raises an exception to scripting
code is false. -/
theorem enumeration_can_raise :
    jsc.get_property_names throwingEnumClass () =
      Except.error (CppExc.stdExc "enumeration failed") :=
  rfl

/-- C9 (amended): for a class with an index accessor, property
enumeration adds the numeric keys `0..length-1` first and then any
names yielded by the string accessor's enumerator; a `std::exception`
raised while computing the index accessor's length is swallowed (the
numeric phase contributes nothing and no exception reaches scripting
code); enumeration raises no exception provided the string enumerator's
callback does not throw — an exception escaping the enumerator
trampoline, or a non-`std::exception` length failure, propagates. -/
theorem enumeration_order_and_swallowed_length (σ : Type) (cls : jsc.JscClass σ) (st : σ)
    (L : Nat) (names : List String) (e : CppExc)
    (hgetter : cls.index_getter.isSome = true) :
    (cls.get_length st = .ok L → cls.string_enumerator = none →
      jsc.get_property_names cls st = .ok ((List.range L).map (fun i => toString i))) ∧
    (∀ en, cls.string_enumerator = some en → en st = .ok names →
      cls.get_length st = .ok L →
      jsc.get_property_names cls st =
        .ok ((List.range L).map (fun i => toString i) ++ names)) ∧
    (cls.get_length st = .error e → e.isStd = true → cls.string_enumerator = none →
      jsc.get_property_names cls st = .ok []) ∧
    (∀ en, cls.string_enumerator = some en → en st = .ok names →
      cls.get_length st = .error e → e.isStd = true →
      jsc.get_property_names cls st = .ok names) := by
  refine ⟨?_, ?_, ?_, ?_⟩
  · intro hlen hen
    simp [jsc.get_property_names, hlen, hen, hgetter]
  · intro en hen hnames hlen
    simp [jsc.get_property_names, hlen, hen, hnames, hgetter]
  · intro hlen hstd hen
    simp [jsc.get_property_names, hlen, hen, hstd, hgetter]
  · intro en hen hnames hlen hstd
    simp [jsc.get_property_names, hlen, hen, hnames, hstd, hgetter]

/-- C9 witness: enumerating `sampleEnumClass` yields the numeric keys
`0`, `1` first and then the enumerator's names. -/
theorem enumeration_order_witness :
    jsc.get_property_names sampleEnumClass () = .ok ["0", "1", "alpha", "beta"] := by
  have h := enumeration_order_and_swallowed_length Unit sampleEnumClass () 2
    ["alpha", "beta"] CppExc.nonStd rfl
  have h2 := h.2.1 (fun _ => .ok ["alpha", "beta"]) rfl rfl rfl
  exact h2

/-- C10: `operator=` on the wrapped native pointer is idempotent and
self-assignment-safe — assigning the pointer already owned changes
nothing and destroys nothing (in particular it never frees the live
object), assigning any pointer twice equals assigning it once — while
assigning a different pointer installs it and destroys exactly the
previously owned object. -/
theorem assign_idempotent_and_replaces (st : jsc.OwnState) (p q : Nat)
    (hown : st.owned = some p) (hne : q ≠ p) :
    jsc.assign st (some p) = st ∧
    (∀ obj : Option Nat, jsc.assign (jsc.assign st obj) obj = jsc.assign st obj) ∧
    jsc.assign st (some q) = ⟨some q, st.destroyed ++ [p]⟩ := by
  refine ⟨?_, ?_, ?_⟩
  · simp [jsc.assign, hown]
  · intro obj
    by_cases h : st.owned = obj
    · simp [jsc.assign, h]
    · simp [jsc.assign, h]
  · have hpq : p ≠ q := Ne.symm hne
    simp [jsc.assign, hown, hpq]

/-- C10 witness: owning pointer 4, re-assigning 4 is a no-op and
assigning 9 replaces and destroys 4. -/
theorem assign_idempotent_witness :
    jsc.assign ⟨some 4, []⟩ (some 4) = ⟨some 4, []⟩ ∧
    jsc.assign ⟨some 4, []⟩ (some 9) = ⟨some 9, [4]⟩ := by
  have h := assign_idempotent_and_replaces ⟨some 4, []⟩ 4 9 rfl (by decide)
  exact ⟨h.1, h.2.2⟩
